import Mathlib

/-!
Verification of the strava-sdk core against its natural-language
specification.  The TypeScript sources are embedded shallowly: pure
functions become Lean functions, promise-returning code becomes explicit
result/trace passing, and the asynchronous settling of promises is made
explicit through settle times.  JavaScript numbers are modelled as `Int`
or `Nat` (all quantities involved are integral), strings as `String`,
optional values as `Option`, and thrown errors as `Except`.
-/

namespace StravaSpec

/-! ## String helpers

JavaScript `String.prototype.includes` and `toLowerCase`, used by the
error classifier.  All keywords involved are ASCII, where
`Char.toLower` agrees with JavaScript `toLowerCase`. -/

/-- Substring test on character lists: `needle` occurs contiguously in
`haystack` (JavaScript `haystack.includes(needle)`). -/
def listContainsSub : List Char → List Char → Bool
  | h, n =>
    if n.isPrefixOf h then true
    else
      match h with
      | [] => false
      | _ :: t => listContainsSub t n

/-- JavaScript `s.includes(sub)`. -/
def strIncludes (s sub : String) : Bool :=
  listContainsSub s.data sub.data

/-- JavaScript `s.toLowerCase()` on the ASCII range. -/
def strToLower (s : String) : String :=
  String.mk (s.data.map Char.toLower)

/-! ## Error classifier — `src/utils/errors.ts` -/

/-- Shapes a thrown JavaScript value can take, as far as
`getErrorMessage` / `getStatusCode` inspect them: a native `Error`
(possibly carrying numeric `statusCode` / `status` fields), a plain
string, a non-`Error` object (whose `message` field is never read by
`getErrorMessage`), or anything else. -/
inductive RawError where
  | jsError (message : String) (statusCode status : Option Int)
  | jsString (s : String)
  | jsObject (message : Option String) (statusCode status : Option Int)
  | jsOther
deriving DecidableEq, Repr

/-- `getErrorMessage` from `src/utils/errors.ts`: `Error` instances give
their message, strings give themselves, everything else the fixed
fallback text. -/
def getErrorMessage : RawError → String
  | .jsError m _ _ => m
  | .jsString s => s
  | _ => "Unknown error occurred"

/-- `getStatusCode` from `src/utils/errors.ts`: a numeric `statusCode`
field wins, else a numeric `status` field, else `undefined`.  Only
objects (including `Error` instances) are inspected. -/
def getStatusCode : RawError → Option Int
  | .jsError _ sc st | .jsObject _ sc st =>
    match sc with
    | some c => some c
    | none => st
  | _ => none

/-- `extractErrorCode` from `src/utils/errors.ts`: an ordered chain of
checks, each testing a status code or (case-insensitively) a message
keyword. -/
def extractErrorCode (message : String) (statusCode : Option Int) : String :=
  let messageLower := strToLower message
  if statusCode = some 401 ∨ strIncludes messageLower "unauthorized" = true then "UNAUTHORIZED"
  else if statusCode = some 403 ∨ strIncludes messageLower "forbidden" = true then "FORBIDDEN"
  else if statusCode = some 404 ∨ strIncludes messageLower "not found" = true then "NOT_FOUND"
  else if statusCode = some 429 ∨ strIncludes messageLower "rate limit" = true then "RATE_LIMITED"
  else if statusCode = some 500 ∨ strIncludes messageLower "server error" = true then "SERVER_ERROR"
  else if statusCode = some 503 ∨ strIncludes messageLower "unavailable" = true then "SERVICE_UNAVAILABLE"
  else if statusCode = some 504 ∨ strIncludes messageLower "timeout" = true then "TIMEOUT"
  else if strIncludes messageLower "token" = true ∧ strIncludes messageLower "expired" = true then "TOKEN_EXPIRED"
  else if strIncludes messageLower "token" = true ∧ strIncludes messageLower "invalid" = true then "TOKEN_INVALID"
  else "UNKNOWN_ERROR"

/-- The retryable error-code set from `isErrorRetryable`. -/
def retryableCodes : List String :=
  ["RATE_LIMITED", "TIMEOUT", "SERVICE_UNAVAILABLE", "SERVER_ERROR"]

/-- `isErrorRetryable` from `src/utils/errors.ts`.  The JavaScript guard
`statusCode && statusCode >= 500 && statusCode < 600` requires the
status to be present and truthy (nonzero). -/
def isErrorRetryable (errorCode : String) (statusCode : Option Int) : Bool :=
  if retryableCodes.contains errorCode then true
  else
    match statusCode with
    | some s => if s ≠ 0 ∧ 500 ≤ s ∧ s < 600 then true else false
    | none => false

/-- The classified-error record (`StravaError`). -/
structure StravaError where
  message : String
  statusCode : Option Int
  errorCode : String
  isRetryable : Bool
  endpoint : Option String
deriving DecidableEq, Repr

/-- `classifyError` from `src/utils/errors.ts`. -/
def classifyError (error : RawError) (endpoint : Option String) : StravaError :=
  let errorMessage := getErrorMessage error
  let statusCode := getStatusCode error
  let errorCode := extractErrorCode errorMessage statusCode
  { message := errorMessage
    statusCode := statusCode
    errorCode := errorCode
    isRetryable := isErrorRetryable errorCode statusCode
    endpoint := endpoint }

/-! ## Retry engine — `src/utils/retry.ts`

The retry loop is deterministic once the outcome of each invocation of
the wrapped operation is fixed, so the operation is embedded as a
function from the zero-based attempt index to an `Except` outcome.  The
loop result carries, besides the settled value, the number of times the
operation was invoked and the list of delays slept (in order).  A
rejection with `Except.error none` models JavaScript
`throw lastError` with `lastError` still `undefined`. -/

/-- `calculateRetryDelay` from `src/utils/retry.ts`:
`min(baseDelay * 2 ** attemptNumber, maxDelay)`. -/
def calculateRetryDelay (attemptNumber baseDelay maxDelay : Nat) : Nat :=
  min (baseDelay * 2 ^ attemptNumber) maxDelay

/-- `getRetryDelay` from `src/utils/retry.ts`.  An absent or empty
configured-delay list falls back to exponential backoff with the source
defaults `baseDelay = 1000`, `maxDelay = 60000`; an exhausted list
yields `none` (JavaScript `null`). -/
def getRetryDelay (attemptNumber : Nat) (configuredDelays : Option (List Nat)) : Option Nat :=
  match configuredDelays with
  | none => some (calculateRetryDelay attemptNumber 1000 60000)
  | some ds =>
    if ds.length = 0 then some (calculateRetryDelay attemptNumber 1000 60000)
    else if ds.length ≤ attemptNumber then none
    else ds[attemptNumber]?

/-- The `for` loop of `retryWithBackoff`.  `fuel` is the number of
remaining loop iterations (`maxAttempts - attempt`), `last` is the
current value of `lastError`.  Each iteration invokes the operation
once; the returned triple is (settled result, invocation count, delays
slept). -/
def retryLoop (fn : Nat → Except E T) (shouldRetry : E → Bool)
    (delays : Option (List Nat)) (maxAttempts : Nat) :
    Nat → Nat → Option E → Except (Option E) T × Nat × List Nat
  | 0, _, last => (Except.error last, 0, [])
  | fuel + 1, attempt, _ =>
    match fn attempt with
    | .ok v => (.ok v, 1, [])
    | .error e =>
      if attempt = maxAttempts - 1 ∨ shouldRetry e = false then (.error (some e), 1, [])
      else
        match getRetryDelay attempt delays with
        | none => (.error (some e), 1, [])
        | some d =>
          let r := retryLoop fn shouldRetry delays maxAttempts fuel (attempt + 1) (some e)
          (r.1, r.2.1 + 1, d :: r.2.2)

/-- `retryWithBackoff` from `src/utils/retry.ts`, with the option
defaults resolved by the caller of this definition (`maxAttempts`
defaults to 3, `shouldRetry` to the constant-true predicate, `delays`
to `none`). -/
def retryWithBackoff (fn : Nat → Except E T) (shouldRetry : E → Bool)
    (delays : Option (List Nat)) (maxAttempts : Nat) :
    Except (Option E) T × Nat × List Nat :=
  retryLoop fn shouldRetry delays maxAttempts maxAttempts 0 none

/-! ## Webhook verifier — `src/utils/validation.ts` -/

/-- Query parameters of the verification request; each may be absent. -/
structure WebhookVerificationInput where
  mode : Option String
  token : Option String
  challenge : Option String
deriving DecidableEq, Repr

/-- Result record of `validateWebhookVerification`. -/
structure VerificationResult where
  valid : Bool
  reason : Option String
  challenge : Option String
deriving DecidableEq, Repr

/-- JavaScript falsiness of an optional string parameter: absent
(`undefined`) or the empty string. -/
def isFalsyStr : Option String → Bool
  | none => true
  | some s => s = ""

/-- `validateWebhookVerification` from `src/utils/validation.ts`. -/
def validateWebhookVerification (params : WebhookVerificationInput)
    (expectedToken : String) : VerificationResult :=
  if isFalsyStr params.mode ∨ isFalsyStr params.token ∨ isFalsyStr params.challenge then
    { valid := false, reason := some "Missing required verification parameters", challenge := none }
  else if params.mode ≠ some "subscribe" then
    { valid := false
      reason := some ("Invalid verification mode: " ++ params.mode.getD "")
      challenge := none }
  else if params.token ≠ some expectedToken then
    { valid := false, reason := some "Invalid verification token", challenge := none }
  else
    { valid := true, reason := none, challenge := params.challenge }

/-! ## URL validation — `src/utils/validation.ts`

`isHttpsUrl` calls the WHATWG `URL` constructor and compares
`parsed.protocol` with `"https:"`.  The constructor is part of the
JavaScript platform, not of this repository; it is condensed here to
the scheme parsing that the protocol comparison depends on: parsing
succeeds when the string starts with a valid scheme name followed by a
colon and a nonempty remainder, and `protocol` is that scheme,
lowercased, with the trailing colon. -/

/-- Split a character list at the first colon. -/
def takeUntilColon : List Char → Option (List Char × List Char)
  | [] => none
  | c :: rest =>
    if c = ':' then some ([], rest)
    else
      match takeUntilColon rest with
      | none => none
      | some (a, b) => some (c :: a, b)

/-- A valid URL scheme name: a letter followed by letters, digits,
`+`, `-` or `.`. -/
def validSchemeName (cs : List Char) : Bool :=
  match cs with
  | [] => false
  | c :: rest => c.isAlpha ∧ rest.all fun d => d.isAlphanum ∨ d = '+' ∨ d = '-' ∨ d = '.'

/-- The `protocol` component the WHATWG `URL` constructor would report,
or `none` when construction throws. -/
def parseUrlProtocol (url : String) : Option String :=
  match takeUntilColon url.data with
  | none => none
  | some (scheme, rest) =>
    if validSchemeName scheme = true ∧ rest ≠ [] then
      some (String.mk (scheme.map Char.toLower) ++ ":")
    else none

/-- `isHttpsUrl` from `src/utils/validation.ts`. -/
def isHttpsUrl (url : String) : Bool :=
  match parseUrlProtocol url with
  | some p => p = "https:"
  | none => false

/-! ## Webhook dispatcher — `src/core/webhooks.ts`

A handler invocation returns a promise; its behaviour is embedded as
the pair of its eventual outcome and the (event-loop) time at which
that promise settles.  `invokeHandlers` runs
`Promise.all(handlers.map((handler) => handler(event, athleteId)))`:
the `map` starts every handler, and the aggregate promise resolves when
the last fulfils, or rejects as soon as the earliest rejection settles
(ties broken by registration order, matching timer order in the event
loop).  Started promises are never cancelled, so each handler still
settles at its own time regardless of the aggregate. -/

/-- Outcome of one handler invocation: its settled result and the time
at which its promise settles. -/
structure HOutcome where
  result : Except String Unit
  settleTime : Nat
deriving Repr

/-- A registered handler: a function of the event and the athlete
(owner) id. -/
def HandlerFn (Event : Type) : Type := Event → Int → HOutcome

/-- Whether an outcome is a rejection. -/
def isRejection (o : HOutcome) : Bool :=
  match o.result with
  | .error _ => true
  | .ok _ => false

/-- Settle time of `Promise.all` when every input fulfils: the last
settle time (0 when there are no promises). -/
def maxSettleTime (outs : List HOutcome) : Nat :=
  outs.foldr (fun o m => max o.settleTime m) 0

/-- The rejection `Promise.all` surfaces: among rejecting inputs, the
one settling earliest, the earliest-registered on ties. -/
def firstEarliestReject : List HOutcome → Option HOutcome
  | [] => none
  | o :: rest =>
    match firstEarliestReject rest with
    | none => if isRejection o then some o else none
    | some b =>
      if isRejection o ∧ o.settleTime ≤ b.settleTime then some o else some b

/-- `Promise.all` over a list of started promises. -/
def promiseAll (outs : List HOutcome) : HOutcome :=
  match firstEarliestReject outs with
  | none => { result := .ok (), settleTime := maxSettleTime outs }
  | some o => o

/-- A Strava webhook event (`WebhookEvent` in `src/types`). -/
structure WebhookEvent where
  object_type : String
  object_id : Int
  aspect_type : String
  owner_id : Int
  subscription_id : Int
  event_time : Int
deriving DecidableEq, Repr

/-- The handler registry of a `StravaWebhooks` instance. -/
structure RegisteredHandlers where
  activityCreate : List (HandlerFn WebhookEvent)
  activityUpdate : List (HandlerFn WebhookEvent)
  activityDelete : List (HandlerFn WebhookEvent)
  deauthorize : List (HandlerFn WebhookEvent)

/-- `StravaWebhooks.invokeHandlers`: starts every handler, awaits
`Promise.all`.  The second component records how many handlers were
started (always all of them). -/
def invokeHandlers (handlers : List (HandlerFn WebhookEvent))
    (event : WebhookEvent) (athleteId : Int) : HOutcome × Nat :=
  (promiseAll (handlers.map fun h => h event athleteId), handlers.length)

/-- `StravaWebhooks.processEvent`: routes by `(object_type,
aspect_type)`; unmatched combinations invoke nothing and resolve.  The
`catch` block rethrows, so rejections pass through unchanged. -/
def processEvent (reg : RegisteredHandlers) (event : WebhookEvent) : HOutcome × Nat :=
  if event.object_type = "activity" then
    if event.aspect_type = "create" then
      invokeHandlers reg.activityCreate event event.owner_id
    else if event.aspect_type = "update" then
      invokeHandlers reg.activityUpdate event event.owner_id
    else if event.aspect_type = "delete" then
      invokeHandlers reg.activityDelete event event.owner_id
    else ({ result := .ok (), settleTime := 0 }, 0)
  else if event.object_type = "athlete" ∧ event.aspect_type = "deauthorize" then
    invokeHandlers reg.deauthorize event event.owner_id
  else ({ result := .ok (), settleTime := 0 }, 0)

/-! ## Webhook subscription creation — `src/core/webhooks.ts` -/

/-- A webhook subscription record as returned by the upstream API. -/
structure WebhookSubscription where
  id : Int
  callback_url : String
  created_at : String
  updated_at : String
deriving DecidableEq, Repr

/-- Outbound HTTP requests `createSubscription` can issue: the
subscription-list `GET` performed by `viewSubscription`, and the
creating `POST`. -/
inductive NetRequest where
  | getSubscriptions
  | postSubscription (callbackUrl : String)
deriving DecidableEq, Repr

/-- `StravaWebhooks.createSubscription`, on the path where the
`viewSubscription` `GET` succeeds and returns `existing` and, when
reached, the creating `POST` succeeds and returns `created`.  The
second component is the trace of outbound requests, in order:
`createSubscription` first awaits `viewSubscription` (one `GET`), then
validates the callback URL, then issues the `POST`. -/
def createSubscription (existing : Option WebhookSubscription)
    (created : WebhookSubscription) (callbackUrl : String) :
    Except String WebhookSubscription × List NetRequest :=
  match existing with
  | some _ =>
    (.error "Subscription already exists. Delete existing subscription first.",
      [.getSubscriptions])
  | none =>
    if isHttpsUrl callbackUrl = false then
      (.error "Callback URL must use HTTPS protocol", [.getSubscriptions])
    else
      (.ok created, [.getSubscriptions, .postSubscription callbackUrl])

/-! ## Token refresh guard — `src/core/api.ts`

Instants are milliseconds since the epoch (`Date` values compare by
that number).  The outcome of the `refreshAccessToken` network call is
passed in as `refreshResult`; it is awaited only on the refresh
branch. -/

/-- `TOKEN_REFRESH_BUFFER` from `src/core/api.ts`: 5 minutes in
milliseconds. -/
def TOKEN_REFRESH_BUFFER : Int := 5 * 60 * 1000

/-- Body of a successful token-refresh response (the fields
`ensureValidToken` reads; `expires_at` is in epoch seconds). -/
structure TokenRefreshResponse where
  access_token : String
  refresh_token : String
  expires_at : Int
deriving DecidableEq, Repr

/-- `TokenData` returned by `ensureValidToken`; `expiresAt` in epoch
milliseconds. -/
structure TokenData where
  accessToken : String
  refreshToken : String
  expiresAt : Int
  wasRefreshed : Bool
deriving DecidableEq, Repr

/-- `StravaApi.ensureValidToken`.  Refreshes when
`expiresAt <= now + TOKEN_REFRESH_BUFFER`; otherwise returns its input
unchanged with `wasRefreshed = false`.  A failed refresh call
propagates its error. -/
def ensureValidToken (now : Int) (refreshResult : Except String TokenRefreshResponse)
    (accessToken refreshToken : String) (expiresAt : Int) :
    Except String TokenData :=
  let bufferTime := now + TOKEN_REFRESH_BUFFER
  if expiresAt ≤ bufferTime then
    match refreshResult with
    | .error e => .error e
    | .ok tokenData =>
      .ok { accessToken := tokenData.access_token
            refreshToken := tokenData.refresh_token
            expiresAt := tokenData.expires_at * 1000
            wasRefreshed := true }
  else
    .ok { accessToken := accessToken
          refreshToken := refreshToken
          expiresAt := expiresAt
          wasRefreshed := false }

/-! ## Rate limiter — `src/utils/rate-limit.ts`

`createRateLimiter` builds a Bottleneck limiter.  Bottleneck is an
external library; per its documented semantics, the options used here
mean: a job is dispatched only when fewer than `maxConcurrent` jobs are
running, at least `minTime` milliseconds have passed since the last
dispatch, and the reservoir is positive; each dispatch decrements the
reservoir, and every `reservoirRefreshInterval` milliseconds the
reservoir is set back to `reservoirRefreshAmount`.  The source computes
`limits.daily` but passes no daily-window option to Bottleneck, so the
resulting configuration carries no daily constraint.
`Math.floor(requests * 0.9)` is written `requests * 9 / 10` (equal for
every quota small enough that the double rounding is exact, in
particular for all realistic quotas). -/

/-- One quota window of `RateLimitConfig` (`requests` per `per`
milliseconds). -/
structure RateWindow where
  requests : Nat
  per : Nat
deriving DecidableEq, Repr

/-- `RateLimitConfig` from `src/types`: optional short-term window,
daily window and minimum spacing. -/
structure RateLimitConfig where
  shortTerm : Option RateWindow
  daily : Option RateWindow
  minTime : Option Nat
deriving DecidableEq, Repr

/-- `DEFAULT_RATE_LIMITS.shortTerm`: 100 requests per 15 minutes. -/
def DEFAULT_SHORT_TERM : RateWindow :=
  { requests := 100, per := 15 * 60 * 1000 }

/-- `DEFAULT_RATE_LIMITS.daily`: 1000 requests per 24 hours. -/
def DEFAULT_DAILY : RateWindow :=
  { requests := 1000, per := 24 * 60 * 60 * 1000 }

/-- The options `createRateLimiter` passes to the Bottleneck
constructor. -/
structure BottleneckOptions where
  minTime : Nat
  maxConcurrent : Nat
  reservoir : Nat
  reservoirRefreshAmount : Nat
  reservoirRefreshInterval : Nat
deriving DecidableEq, Repr

/-- `createRateLimiter` from `src/utils/rate-limit.ts`.  The source
also computes `limits.daily := config?.daily ?? DEFAULT_RATE_LIMITS.daily`,
but that value flows into none of the Bottleneck options. -/
def createRateLimiter (config : Option RateLimitConfig) : BottleneckOptions :=
  let shortTerm := (config.bind RateLimitConfig.shortTerm).getD DEFAULT_SHORT_TERM
  let minTime := (config.bind RateLimitConfig.minTime).getD 6000
  { minTime := minTime
    maxConcurrent := 1
    reservoir := shortTerm.requests * 9 / 10
    reservoirRefreshAmount := shortTerm.requests * 9 / 10
    reservoirRefreshInterval := shortTerm.per }

/-- Dispatch-relevant state of a Bottleneck limiter. -/
structure LimiterState where
  reservoir : Nat
  running : Nat
  lastDispatch : Option Nat
deriving DecidableEq, Repr

/-- The initial state of a freshly constructed limiter. -/
def initialLimiterState (opts : BottleneckOptions) : LimiterState :=
  { reservoir := opts.reservoir, running := 0, lastDispatch := none }

/-- Whether `minTime` has elapsed since the last dispatch (vacuously
true before the first dispatch). -/
def spacingElapsed (lastDispatch : Option Nat) (minTime now : Nat) : Bool :=
  match lastDispatch with
  | none => true
  | some t => t + minTime ≤ now

/-- Bottleneck admission at time `now`: capacity, reservoir and minimum
spacing. -/
def canDispatch (opts : BottleneckOptions) (st : LimiterState) (now : Nat) : Bool :=
  st.running < opts.maxConcurrent ∧ 0 < st.reservoir ∧
    spacingElapsed st.lastDispatch opts.minTime now = true

/-- State change when a job is dispatched at time `now`. -/
def dispatchStep (st : LimiterState) (now : Nat) : LimiterState :=
  { reservoir := st.reservoir - 1, running := st.running + 1, lastDispatch := some now }

/-- State change when a running job completes. -/
def completeStep (st : LimiterState) : LimiterState :=
  { st with running := st.running - 1 }

/-! ## Theorems -/

/-- C10: for `maxAttempts = 0` (the JavaScript destructuring default
applies only to `undefined`, so an explicit 0 is kept), the loop body
never runs: `retryWithBackoff` rejects without invoking the operation,
and the rejection value is the uninitialised `lastError`
(`undefined`, modelled `none`), not an error produced by the
operation. -/
theorem c10_zero_attempts_rejects_undefined {T E : Type} (fn : Nat → Except E T)
    (shouldRetry : E → Bool) (delays : Option (List Nat)) :
    retryWithBackoff fn shouldRetry delays 0 = (Except.error none, 0, []) := rfl

/-- C8: `ensureValidToken` refreshes exactly when
`expiresAt ≤ now + TOKEN_REFRESH_BUFFER` (5 minutes); on refresh it
returns the refresh-endpoint triple with `wasRefreshed = true`
(converting `expires_at` seconds to milliseconds), otherwise it returns
the input triple unchanged with `wasRefreshed = false`. -/
theorem c8_ensure_valid_token_policy (now expiresAt : Int)
    (refreshResult : Except String TokenRefreshResponse)
    (accessToken refreshToken : String) :
    (expiresAt ≤ now + TOKEN_REFRESH_BUFFER →
      ∀ td, refreshResult = Except.ok td →
        ensureValidToken now refreshResult accessToken refreshToken expiresAt =
          Except.ok ⟨td.access_token, td.refresh_token, td.expires_at * 1000, true⟩) ∧
    (now + TOKEN_REFRESH_BUFFER < expiresAt →
      ensureValidToken now refreshResult accessToken refreshToken expiresAt =
        Except.ok ⟨accessToken, refreshToken, expiresAt, false⟩) := by
  constructor
  · intro h td hr
    subst hr
    simp [ensureValidToken, h]
  · intro h
    simp [ensureValidToken, not_le.mpr h]

/-- Witness for C8: at `now = 0`, an expiry 10 minutes ahead is not
refreshed; expiries 10 minutes past and 3 minutes ahead are refreshed
to the response triple. -/
theorem c8_ensure_valid_token_policy_witness :
    ensureValidToken 0 (Except.ok ⟨"a2", "r2", 9⟩) "a" "r" 600000 =
      Except.ok ⟨"a", "r", 600000, false⟩ ∧
    ensureValidToken 0 (Except.ok ⟨"a2", "r2", 9⟩) "a" "r" (-600000) =
      Except.ok ⟨"a2", "r2", 9000, true⟩ ∧
    ensureValidToken 0 (Except.ok ⟨"a2", "r2", 9⟩) "a" "r" 180000 =
      Except.ok ⟨"a2", "r2", 9000, true⟩ :=
  ⟨(c8_ensure_valid_token_policy 0 600000 (Except.ok ⟨"a2", "r2", 9⟩) "a" "r").2
      (by decide),
   (c8_ensure_valid_token_policy 0 (-600000) (Except.ok ⟨"a2", "r2", 9⟩) "a" "r").1
      (by decide) ⟨"a2", "r2", 9⟩ rfl,
   (c8_ensure_valid_token_policy 0 180000 (Except.ok ⟨"a2", "r2", 9⟩) "a" "r").1
      (by decide) ⟨"a2", "r2", 9⟩ rfl⟩

/-- C5 counterexample: status 599 (no keyword, kind `UNKNOWN_ERROR`) is
retryable in the code — the guard is `statusCode < 600`, so the
half-open interval is `[500, 600)`, not `[500, 599)` as claimed, and
`599` lies outside every retryable case the claim allows. -/
theorem c5_counterexample :
    extractErrorCode "boom" (some 599) = "UNKNOWN_ERROR" ∧
    isErrorRetryable "UNKNOWN_ERROR" (some 599) = true ∧
    retryableCodes.contains "UNKNOWN_ERROR" = false ∧
    ¬((599 : Int) < 599) := by
  refine ⟨by decide, by decide, by decide, by decide⟩

/-- C5 amended: a classified error is retryable exactly when its kind
is one of `RATE_LIMITED`, `TIMEOUT`, `SERVICE_UNAVAILABLE`,
`SERVER_ERROR`, or its status code lies in the half-open interval
`[500, 600)`; in particular a `NOT_FOUND` classification is retryable
exactly when it carries such a 5xx status. -/
theorem c5_retryable_characterisation (e : RawError) (endpoint : Option String) :
    (classifyError e endpoint).isRetryable = true ↔
      ((classifyError e endpoint).errorCode ∈ retryableCodes ∨
        ∃ s, getStatusCode e = some s ∧ 500 ≤ s ∧ s < 600) := by
  simp only [classifyError]
  rcases h : getStatusCode e with - | s
  · simp only [h, isErrorRetryable]
    constructor
    · intro hr
      left
      by_contra hc
      rw [if_neg (fun hm => hc (List.mem_of_elem_eq_true hm))] at hr
      exact Bool.false_ne_true hr
    · rintro (hm | ⟨s, hs, -⟩)
      · rw [if_pos (List.elem_eq_true_of_mem hm)]
      · exact absurd hs (by simp)
  · simp only [h, isErrorRetryable]
    by_cases hc : (extractErrorCode (getErrorMessage e) (some s)) ∈ retryableCodes
    · rw [if_pos (List.elem_eq_true_of_mem hc)]
      simp [hc]
    · rw [if_neg (fun hm => hc (List.mem_of_elem_eq_true hm))]
      constructor
      · intro hr
        right
        by_cases hin : s ≠ 0 ∧ 500 ≤ s ∧ s < 600
        · exact ⟨s, rfl, hin.2⟩
        · rw [if_neg hin] at hr
          exact absurd hr Bool.false_ne_true
      · rintro (hm | ⟨t, ht, h5, h6⟩)
        · exact absurd hm hc
        · obtain rfl : s = t := by injection ht
          rw [if_pos ⟨by omega, h5, h6⟩]

/-- C9 counterexample: with `mode` present but empty (an empty string
is falsy), `verify` reports the missing-parameters reason even though
`mode ≠ "subscribe"`, so the failure does not cite the invalid mode
value as the claim requires. -/
theorem c9_counterexample :
    validateWebhookVerification ⟨some "", some "t", some "c"⟩ "t" =
      ⟨false, some "Missing required verification parameters", none⟩ ∧
    some "" ≠ some "subscribe" ∧
    (validateWebhookVerification ⟨some "", some "t", some "c"⟩ "t").reason ≠
      some ("Invalid verification mode: " ++ "") := by
  refine ⟨rfl, by decide, by decide⟩

/-- C9 amended: `verify` fails with the missing-parameters reason when
any of mode/token/challenge is absent or empty (JavaScript falsiness);
when all three are present and nonempty, it fails citing the invalid
value when the mode is not `subscribe`, fails with reason
`Invalid verification token` when the mode is `subscribe` but the
token differs from the expected token, and otherwise succeeds
returning the input challenge verbatim. -/
theorem c9_verify_cases (params : WebhookVerificationInput) (expectedToken : String) :
    ((params.mode = none ∨ params.token = none ∨ params.challenge = none) →
      validateWebhookVerification params expectedToken =
        ⟨false, some "Missing required verification parameters", none⟩) ∧
    (∀ m t c, params.mode = some m → params.token = some t → params.challenge = some c →
      m ≠ "" → t ≠ "" → c ≠ "" →
      (m ≠ "subscribe" →
        validateWebhookVerification params expectedToken =
          ⟨false, some ("Invalid verification mode: " ++ m), none⟩) ∧
      (m = "subscribe" → t ≠ expectedToken →
        validateWebhookVerification params expectedToken =
          ⟨false, some "Invalid verification token", none⟩) ∧
      (m = "subscribe" → t = expectedToken →
        validateWebhookVerification params expectedToken = ⟨true, none, some c⟩)) := by
  obtain ⟨mo, tko, cho⟩ := params
  constructor
  · rintro (rfl | rfl | rfl) <;>
      simp [validateWebhookVerification, isFalsyStr]
  · rintro m t c rfl rfl rfl hm ht hc
    refine ⟨?_, ?_, ?_⟩
    · intro hms
      rw [validateWebhookVerification, if_neg (by simp [isFalsyStr, hm, ht, hc]),
        if_pos (by simpa using hms)]
      rfl
    · rintro rfl hte
      rw [validateWebhookVerification, if_neg (by simp [isFalsyStr, hm, ht, hc]),
        if_neg (by simp), if_pos (by simpa using hte)]
    · rintro rfl rfl
      rw [validateWebhookVerification, if_neg (by simp [isFalsyStr, hm, ht, hc]),
        if_neg (by simp), if_neg (by simp)]

/-- Witness for C9: `verify({mode:"subscribe", token:"T",
challenge:"C"}, "T")` yields `{valid:true, challenge:"C"}`. -/
theorem c9_verify_cases_witness :
    validateWebhookVerification ⟨some "subscribe", some "T", some "C"⟩ "T" =
      ⟨true, none, some "C"⟩ :=
  ((c9_verify_cases ⟨some "subscribe", some "T", some "C"⟩ "T").2 "subscribe" "T" "C"
    rfl rfl rfl (by decide) (by decide) (by decide)).2.2 rfl rfl

/-- C4 counterexample: with status 429 and message `unauthorized`, the
message keyword of the earlier category wins: the classifier returns
`UNAUTHORIZED`, not the status-derived `RATE_LIMITED` the claim
requires. -/
theorem c4_counterexample :
    extractErrorCode "unauthorized" (some 429) = "UNAUTHORIZED" ∧
    strIncludes (strToLower "unauthorized") "unauthorized" = true ∧
    "UNAUTHORIZED" ≠ "RATE_LIMITED" := by
  refine ⟨by decide, by decide, by decide⟩

/-- C4 amended: `classify` is deterministic — its output depends only
on the extracted message and status code — and the classifier checks
the categories in the fixed order UNAUTHORIZED, FORBIDDEN, NOT_FOUND,
RATE_LIMITED, SERVER_ERROR, SERVICE_UNAVAILABLE, TIMEOUT, each category
matching on its status code or its message keyword; hence a recognized
status code determines the kind whenever the (lowercased) message
contains no keyword of an earlier category, while a keyword of an
earlier category overrides the status code. -/
theorem c4_deterministic_and_category_order :
    (∀ (e1 e2 : RawError) (ep : Option String),
      getErrorMessage e1 = getErrorMessage e2 → getStatusCode e1 = getStatusCode e2 →
        classifyError e1 ep = classifyError e2 ep) ∧
    (∀ m : String,
      extractErrorCode m (some 401) = "UNAUTHORIZED" ∧
      (strIncludes (strToLower m) "unauthorized" = false →
        extractErrorCode m (some 403) = "FORBIDDEN") ∧
      (strIncludes (strToLower m) "unauthorized" = false →
        strIncludes (strToLower m) "forbidden" = false →
        extractErrorCode m (some 404) = "NOT_FOUND") ∧
      (strIncludes (strToLower m) "unauthorized" = false →
        strIncludes (strToLower m) "forbidden" = false →
        strIncludes (strToLower m) "not found" = false →
        extractErrorCode m (some 429) = "RATE_LIMITED") ∧
      (strIncludes (strToLower m) "unauthorized" = false →
        strIncludes (strToLower m) "forbidden" = false →
        strIncludes (strToLower m) "not found" = false →
        strIncludes (strToLower m) "rate limit" = false →
        extractErrorCode m (some 500) = "SERVER_ERROR") ∧
      (strIncludes (strToLower m) "unauthorized" = false →
        strIncludes (strToLower m) "forbidden" = false →
        strIncludes (strToLower m) "not found" = false →
        strIncludes (strToLower m) "rate limit" = false →
        strIncludes (strToLower m) "server error" = false →
        extractErrorCode m (some 503) = "SERVICE_UNAVAILABLE") ∧
      (strIncludes (strToLower m) "unauthorized" = false →
        strIncludes (strToLower m) "forbidden" = false →
        strIncludes (strToLower m) "not found" = false →
        strIncludes (strToLower m) "rate limit" = false →
        strIncludes (strToLower m) "server error" = false →
        strIncludes (strToLower m) "unavailable" = false →
        extractErrorCode m (some 504) = "TIMEOUT")) := by
  constructor
  · intro e1 e2 ep h1 h2
    simp only [classifyError, h1, h2]
  · intro m
    refine ⟨?_, ?_, ?_, ?_, ?_, ?_, ?_⟩ <;>
      intros <;>
      simp_all [extractErrorCode]

/-- Witness for C4: a message matching no keyword lets the status code
429 determine the kind `RATE_LIMITED`. -/
theorem c4_deterministic_and_category_order_witness :
    extractErrorCode "boom" (some 429) = "RATE_LIMITED" :=
  (c4_deterministic_and_category_order.2 "boom").2.2.2.1
    (by decide) (by decide) (by decide)

/-- Helper: the retry loop on an always-failing operation with a
nonempty configured delay list shorter than the attempt budget walks
the whole list and then rethrows: starting at `attempt ≤ ds.length`
with `fuel + attempt = maxAttempts`, it performs
`ds.length - attempt + 1` invocations, sleeps exactly the remaining
delays, and settles on the operation error. -/
theorem retryLoop_alwaysFail_delays {T E : Type} (e : E) (ds : List Nat)
    (maxAttempts : Nat) (hne : ds ≠ []) (hlt : ds.length < maxAttempts) :
    ∀ (fuel attempt : Nat) (last : Option E), attempt + fuel = maxAttempts →
      attempt ≤ ds.length →
      retryLoop (fun _ => (Except.error e : Except E T)) (fun _ => true) (some ds)
          maxAttempts fuel attempt last =
        (Except.error (some e), ds.length - attempt + 1, ds.drop attempt) := by
  intro fuel
  induction fuel with
  | zero => intro attempt last hsum hle; omega
  | succ n ih =>
    intro attempt last hsum hle
    rw [retryLoop]
    dsimp only
    have hlen0 : ¬ds.length = 0 := by
      intro h0
      exact hne (List.eq_nil_of_length_eq_zero h0)
    rcases Nat.lt_or_ge attempt ds.length with hcase | hcase
    · rw [if_neg (by simp; omega)]
      rw [getRetryDelay, if_neg hlen0, if_neg (by omega),
        List.getElem?_eq_getElem hcase]
      dsimp only
      rw [ih (attempt + 1) (some e) (by omega) (by omega)]
      refine Prod.ext rfl (Prod.ext ?_ ?_)
      · simp only
        omega
      · simp only
        exact (List.drop_eq_getElem_cons hcase).symm
    · have heq : attempt = ds.length := Nat.le_antisymm hle hcase
      by_cases hm : attempt = maxAttempts - 1
      · rw [if_pos (Or.inl hm)]
        simp [heq]
      · rw [if_neg (by simp [hm])]
        rw [getRetryDelay, if_neg hlen0, if_pos (by omega)]
        simp [heq]

/-- C6 counterexample: an explicitly configured empty delay sequence is
treated like no sequence at all — at attempt 0 (`0 ≥ length`) the
operation is retried after the exponential-backoff delay 1000 ms
instead of rethrowing immediately. -/
theorem c6_counterexample :
    retryWithBackoff (fun _ : Nat => (Except.error "boom" : Except String Nat))
        (fun _ => true) (some []) 2 = (Except.error (some "boom"), 2, [1000]) ∧
    ([] : List Nat).length ≤ 0 ∧ getRetryDelay 0 (some []) ≠ none := by
  refine ⟨rfl, by decide, by decide⟩

/-- C6 amended: with no configured sequence the delay before retry `i`
is `min(1000 * 2 ^ i, 60000)`; with a nonempty configured sequence the
delay is `delays[i]` for `i < length`, and once `i ≥ length` the delay
is `null`, causing `retryWithBackoff` to rethrow immediately with no
exponential fallback: on a permanently failing operation it stops after
`length + 1` invocations, having slept exactly the configured
delays. -/
theorem c6_delay_policy :
    (∀ i, getRetryDelay i none = some (min (1000 * 2 ^ i) 60000)) ∧
    (∀ i (ds : List Nat), ds ≠ [] → ds.length ≤ i →
      getRetryDelay i (some ds) = none) ∧
    (∀ i (ds : List Nat) (h : i < ds.length),
      getRetryDelay i (some ds) = some (ds.get ⟨i, h⟩)) ∧
    (∀ (T E : Type) (e : E) (ds : List Nat) (maxAttempts : Nat),
      ds ≠ [] → ds.length < maxAttempts →
      retryWithBackoff (fun _ => (Except.error e : Except E T)) (fun _ => true)
          (some ds) maxAttempts =
        (Except.error (some e), ds.length + 1, ds)) := by
  refine ⟨fun i => rfl, ?_, ?_, ?_⟩
  · intro i ds hne hle
    have hlen0 : ¬ds.length = 0 := by
      intro h0
      exact hne (List.eq_nil_of_length_eq_zero h0)
    rw [getRetryDelay, if_neg hlen0, if_pos hle]
  · intro i ds h
    have hlen0 : ¬ds.length = 0 := by omega
    rw [getRetryDelay, if_neg hlen0, if_neg (by omega),
      List.getElem?_eq_getElem h, List.get_eq_getElem]
  · intro T E e ds maxAttempts hne hlt
    have := retryLoop_alwaysFail_delays (T := T) e ds maxAttempts hne hlt
      maxAttempts 0 none (by omega) (by omega)
    simpa using this

/-- Witness for C6: delays `[10, 10]` with budget 3 give 3 invocations
and the two configured sleeps; `[5]` yields `5` at attempt 0 and `null`
at attempt 1. -/
theorem c6_delay_policy_witness :
    retryWithBackoff (fun _ : Nat => (Except.error "x" : Except String Nat))
        (fun _ => true) (some [10, 10]) 3 =
      (Except.error (some "x"), 3, [10, 10]) ∧
    getRetryDelay 0 (some [5]) = some 5 ∧
    getRetryDelay 1 (some [5]) = none :=
  ⟨c6_delay_policy.2.2.2 Nat String "x" [10, 10] 3 (by decide) (by decide),
   c6_delay_policy.2.2.1 0 [5] (by decide),
   c6_delay_policy.2.1 1 [5] (by decide) (by decide)⟩

/-- C7 counterexample: with `shouldRetry` constantly false and
`maxAttempts = 0`, the operation is invoked 0 times, not once — the
"exactly once regardless of maxAttempts" clause fails at
`maxAttempts = 0` (consistently with the zero-attempt behaviour of the
loop). -/
theorem c7_counterexample :
    retryWithBackoff (fun _ : Nat => (Except.error "boom" : Except String Nat))
        (fun _ => false) none 0 = (Except.error none, 0, []) ∧
    (0 : Nat) ≠ 1 :=
  ⟨rfl, by decide⟩

/-- C7 amended: with `maxAttempts = 3` and `delays = [10, 10]`, an
operation failing twice then succeeding resolves with the success value
after exactly 3 invocations; an always-failing operation rejects with
the original error after exactly 3 invocations; and with `shouldRetry`
constantly false the operation is invoked exactly once for every
`maxAttempts ≥ 1`. -/
theorem c7_retry_behaviour :
    (∀ (T : Type) (v : T) (e : String),
      retryWithBackoff (fun i => if i < 2 then Except.error e else Except.ok v)
          (fun _ => true) (some [10, 10]) 3 = (Except.ok v, 3, [10, 10])) ∧
    (∀ (T : Type) (e : String),
      retryWithBackoff (fun _ => (Except.error e : Except String T))
          (fun _ => true) (some [10, 10]) 3 =
        (Except.error (some e), 3, [10, 10])) ∧
    (∀ (T E : Type) (fn : Nat → Except E T) (e : E) (ds : Option (List Nat)) (k : Nat),
      fn 0 = Except.error e →
      retryWithBackoff fn (fun _ => false) ds (k + 1) =
        (Except.error (some e), 1, [])) := by
  refine ⟨fun T v e => rfl, fun T e => rfl, ?_⟩
  intro T E fn e ds k h
  rw [retryWithBackoff, retryLoop, h]
  dsimp only
  rw [if_pos (Or.inr rfl)]

/-- Witness for C7: a concrete operation failing on attempt 0 with
`shouldRetry` constantly false and `maxAttempts = 5` is invoked exactly
once. -/
theorem c7_retry_behaviour_witness :
    retryWithBackoff (fun _ : Nat => (Except.error 7 : Except Nat Nat))
        (fun _ => false) none 5 = (Except.error (some 7), 1, []) :=
  c7_retry_behaviour.2.2 Nat Nat (fun _ => Except.error 7) 7 none 4 rfl

/-- C3 counterexample: with no existing subscription and the non-HTTPS
callback URL `http://example.com/webhook`, `createSubscription` rejects
with the HTTPS error but the outbound request trace is not empty: the
`viewSubscription` `GET` was issued before the URL was validated. -/
theorem c3_counterexample :
    createSubscription none ⟨123, "https://example.com/cb", "a", "b"⟩
        "http://example.com/webhook" =
      (Except.error "Callback URL must use HTTPS protocol",
        [NetRequest.getSubscriptions]) ∧
    ([NetRequest.getSubscriptions] : List NetRequest) ≠ [] := by
  refine ⟨rfl, by decide⟩

/-- C3 amended: for every non-HTTPS callback URL, `createSubscription`
rejects before the subscription-creating `POST` is issued — no
`postSubscription` request ever appears in the trace — but the
subscription-lookup `GET` of `viewSubscription` is issued first, before
the URL is validated (and an already-existing subscription also fails
after that same `GET`). -/
theorem c3_https_failure_before_post (created : WebhookSubscription) (url : String)
    (h : isHttpsUrl url = false) :
    createSubscription none created url =
      (Except.error "Callback URL must use HTTPS protocol",
        [NetRequest.getSubscriptions]) ∧
    (∀ cb, NetRequest.postSubscription cb ∉ (createSubscription none created url).2) ∧
    (∀ sub : WebhookSubscription,
      createSubscription (some sub) created url =
        (Except.error "Subscription already exists. Delete existing subscription first.",
          [NetRequest.getSubscriptions])) := by
  refine ⟨by simp [createSubscription, h], ?_, fun sub => rfl⟩
  intro cb
  simp [createSubscription, h]

/-- Witness for C3: the concrete URL `http://example.com/webhook` is
rejected after only the lookup `GET`. -/
theorem c3_https_failure_before_post_witness :
    createSubscription none ⟨7, "https://example.com/hook", "a", "b"⟩
        "http://example.com/webhook" =
      (Except.error "Callback URL must use HTTPS protocol",
        [NetRequest.getSubscriptions]) :=
  (c3_https_failure_before_post ⟨7, "https://example.com/hook", "a", "b"⟩
    "http://example.com/webhook" (by decide)).1

/-- The outcomes of starting every handler in a list on an event:
`handlers.map((handler) => handler(event, athleteId))`. -/
def startedOutcomes (handlers : List (HandlerFn WebhookEvent))
    (event : WebhookEvent) (athleteId : Int) : List HOutcome :=
  handlers.map fun h => h event athleteId

/-- Helper: every outcome settles no later than `maxSettleTime`. -/
theorem le_maxSettleTime (outs : List HOutcome) :
    ∀ o ∈ outs, o.settleTime ≤ maxSettleTime outs := by
  induction outs with
  | nil => intro o ho; cases ho
  | cons a rest ih =>
    intro o ho
    rcases List.mem_cons.1 ho with rfl | ho
    · exact le_max_left _ _
    · exact le_trans (ih o ho) (le_max_right _ _)

/-- Helper: when no outcome is a rejection, `firstEarliestReject` finds
none. -/
theorem firstEarliestReject_eq_none (outs : List HOutcome)
    (h : ∀ o ∈ outs, isRejection o = false) :
    firstEarliestReject outs = none := by
  induction outs with
  | nil => rfl
  | cons a rest ih =>
    rw [firstEarliestReject, ih (fun o ho => h o (List.mem_cons_of_mem a ho)),
      if_neg (by simp [h a (List.mem_cons_self a rest)])]

/-- Helper: conversely, when `firstEarliestReject` finds nothing, no
outcome is a rejection. -/
theorem no_reject_of_firstEarliestReject_none (outs : List HOutcome)
    (h : firstEarliestReject outs = none) :
    ∀ o ∈ outs, isRejection o = false := by
  induction outs with
  | nil => intro o ho; cases ho
  | cons a rest ih =>
    rw [firstEarliestReject] at h
    rcases hr : firstEarliestReject rest with - | b
    · rw [hr] at h
      intro o ho
      rcases List.mem_cons.1 ho with rfl | ho
      · by_cases ha : isRejection o = true
        · rw [if_pos ha] at h; cases h
        · exact (Bool.not_eq_true _) ▸ ha
      · exact ih hr o ho
    · rw [hr] at h
      by_cases ha : isRejection a = true ∧ a.settleTime ≤ b.settleTime <;>
        simp [ha] at h

/-- Helper: the rejection selected by `firstEarliestReject` is one of
the outcomes, is a rejection, and settles no later than every rejecting
outcome. -/
theorem firstEarliestReject_spec (outs : List HOutcome) (o : HOutcome)
    (h : firstEarliestReject outs = some o) :
    o ∈ outs ∧ isRejection o = true ∧
      ∀ b ∈ outs, isRejection b = true → o.settleTime ≤ b.settleTime := by
  induction outs generalizing o with
  | nil => cases h
  | cons a rest ih =>
    rw [firstEarliestReject] at h
    rcases hr : firstEarliestReject rest with - | b
    · rw [hr] at h
      dsimp only at h
      by_cases ha : isRejection a = true
      · rw [if_pos ha] at h
        obtain rfl : a = o := by injection h
        refine ⟨List.mem_cons_self _ _, ha, ?_⟩
        intro b hb hrb
        rcases List.mem_cons.1 hb with rfl | hb
        · exact le_refl _
        · exact absurd hrb (by
            simp [no_reject_of_firstEarliestReject_none rest hr b hb])
      · rw [if_neg ha] at h
        cases h
    · rw [hr] at h
      dsimp only at h
      obtain ⟨hbm, hbr, hbmin⟩ := ih b hr
      by_cases ha : isRejection a = true ∧ a.settleTime ≤ b.settleTime
      · rw [if_pos ha] at h
        obtain rfl : a = o := by injection h
        refine ⟨List.mem_cons_self _ _, ha.1, ?_⟩
        intro c hc hrc
        rcases List.mem_cons.1 hc with rfl | hc
        · exact le_refl _
        · exact le_trans ha.2 (hbmin c hc hrc)
      · rw [if_neg ha] at h
        obtain rfl : b = o := by injection h
        refine ⟨List.mem_cons_of_mem a hbm, hbr, ?_⟩
        intro c hc hrc
        rcases List.mem_cons.1 hc with rfl | hc
        · by_cases hca : isRejection c = true
          · rcases Nat.le_total c.settleTime b.settleTime with hle | hle
            · exact absurd ⟨hca, hle⟩ ha
            · exact hle
          · exact absurd hrc hca
        · exact hbmin c hc hrc

/-- C1 counterexample: registry with two activity-create handlers, the
first rejecting at time 1, the second fulfilling at time 5.
`processEvent` rejects with the first handler's error at time 1 —
before the sibling's promise settles at time 5 — because
`invokeHandlers` awaits `Promise.all`, which rejects at the earliest
rejection instead of waiting for all promises to settle. -/
theorem c1_counterexample :
    processEvent
        ⟨[fun _ _ => ⟨Except.error "boom", 1⟩, fun _ _ => ⟨Except.ok (), 5⟩], [], [], []⟩
        ⟨"activity", 12345, "create", 67890, 1, 0⟩ =
      (⟨Except.error "boom", 1⟩, 2) ∧ (1 : Nat) < 5 :=
  ⟨rfl, by decide⟩

/-- C1 amended: for every webhook event whose `(object_type,
aspect_type)` pair is one of the four registered keys — `(activity,
create)`, `(activity, update)`, `(activity, delete)`, `(athlete,
deauthorize)` — `processEvent` routes to exactly that key's handler
list and awaits `invokeHandlers` on it; `invokeHandlers` starts every
handler of the list (all of them, once each, with the event and owner
id; started promises are never cancelled, so each sibling still runs to
completion and settles at its own time); if no handler rejects it
resolves once the last handler settles, and if any handler rejects it
rejects with the earliest-settling rejection at that rejection's settle
time — which can precede the settling of sibling handlers, since
`Promise.all` rather than `Promise.allSettled` is awaited. -/
theorem c1_fanout_rejection_semantics :
    (∀ (reg : RegisteredHandlers) (event : WebhookEvent),
      (event.object_type = "activity" → event.aspect_type = "create" →
        processEvent reg event =
          invokeHandlers reg.activityCreate event event.owner_id) ∧
      (event.object_type = "activity" → event.aspect_type = "update" →
        processEvent reg event =
          invokeHandlers reg.activityUpdate event event.owner_id) ∧
      (event.object_type = "activity" → event.aspect_type = "delete" →
        processEvent reg event =
          invokeHandlers reg.activityDelete event event.owner_id) ∧
      (event.object_type = "athlete" → event.aspect_type = "deauthorize" →
        processEvent reg event =
          invokeHandlers reg.deauthorize event event.owner_id)) ∧
    (∀ (hs : List (HandlerFn WebhookEvent)) (event : WebhookEvent) (athleteId : Int),
      (invokeHandlers hs event athleteId).2 = hs.length ∧
      ((∀ o ∈ startedOutcomes hs event athleteId, isRejection o = false) →
        (invokeHandlers hs event athleteId).1 =
          ⟨Except.ok (), maxSettleTime (startedOutcomes hs event athleteId)⟩ ∧
        ∀ o ∈ startedOutcomes hs event athleteId,
          o.settleTime ≤ maxSettleTime (startedOutcomes hs event athleteId)) ∧
      (∀ o, firstEarliestReject (startedOutcomes hs event athleteId) = some o →
        (invokeHandlers hs event athleteId).1 = o ∧
        o ∈ startedOutcomes hs event athleteId ∧
        isRejection o = true ∧
        ∀ b ∈ startedOutcomes hs event athleteId,
          isRejection b = true → o.settleTime ≤ b.settleTime)) := by
  constructor
  · intro reg event
    refine ⟨fun hot hat => ?_, fun hot hat => ?_, fun hot hat => ?_, fun hot hat => ?_⟩ <;>
      simp [processEvent, hot, hat]
  · intro hs event athleteId
    refine ⟨rfl, ?_, ?_⟩
    · intro hok
      constructor
      · show promiseAll (startedOutcomes hs event athleteId) = _
        rw [promiseAll,
          firstEarliestReject_eq_none (startedOutcomes hs event athleteId) hok]
      · exact le_maxSettleTime _
    · intro o ho
      obtain ⟨hm, hr, hmin⟩ := firstEarliestReject_spec _ o ho
      refine ⟨?_, hm, hr, hmin⟩
      show promiseAll (startedOutcomes hs event athleteId) = o
      rw [promiseAll, ho]

/-- Witness for C1: one concrete registry with handlers on all four
keys; `processEvent` routes an `(activity, create)`, an `(activity,
update)`, an `(activity, delete)` and an `(athlete, deauthorize)` event
each to its own key's handler list, and the create key — one handler
rejecting at time 1, its sibling fulfilling at time 9 — surfaces the
rejection settling at time 1. -/
theorem c1_fanout_rejection_semantics_witness :
    (processEvent
        ⟨[fun _ _ => ⟨Except.error "first", 1⟩, fun _ _ => ⟨Except.ok (), 9⟩],
          [fun _ _ => ⟨Except.ok (), 2⟩], [fun _ _ => ⟨Except.error "del", 3⟩],
          [fun _ _ => ⟨Except.ok (), 4⟩]⟩
        ⟨"activity", 1, "create", 2, 3, 4⟩ =
      invokeHandlers [fun _ _ => ⟨Except.error "first", 1⟩, fun _ _ => ⟨Except.ok (), 9⟩]
        ⟨"activity", 1, "create", 2, 3, 4⟩ 2) ∧
    (processEvent
        ⟨[fun _ _ => ⟨Except.error "first", 1⟩, fun _ _ => ⟨Except.ok (), 9⟩],
          [fun _ _ => ⟨Except.ok (), 2⟩], [fun _ _ => ⟨Except.error "del", 3⟩],
          [fun _ _ => ⟨Except.ok (), 4⟩]⟩
        ⟨"activity", 1, "update", 2, 3, 4⟩ =
      invokeHandlers [fun _ _ => ⟨Except.ok (), 2⟩]
        ⟨"activity", 1, "update", 2, 3, 4⟩ 2) ∧
    (processEvent
        ⟨[fun _ _ => ⟨Except.error "first", 1⟩, fun _ _ => ⟨Except.ok (), 9⟩],
          [fun _ _ => ⟨Except.ok (), 2⟩], [fun _ _ => ⟨Except.error "del", 3⟩],
          [fun _ _ => ⟨Except.ok (), 4⟩]⟩
        ⟨"activity", 1, "delete", 2, 3, 4⟩ =
      invokeHandlers [fun _ _ => ⟨Except.error "del", 3⟩]
        ⟨"activity", 1, "delete", 2, 3, 4⟩ 2) ∧
    (processEvent
        ⟨[fun _ _ => ⟨Except.error "first", 1⟩, fun _ _ => ⟨Except.ok (), 9⟩],
          [fun _ _ => ⟨Except.ok (), 2⟩], [fun _ _ => ⟨Except.error "del", 3⟩],
          [fun _ _ => ⟨Except.ok (), 4⟩]⟩
        ⟨"athlete", 1, "deauthorize", 2, 3, 4⟩ =
      invokeHandlers [fun _ _ => ⟨Except.ok (), 4⟩]
        ⟨"athlete", 1, "deauthorize", 2, 3, 4⟩ 2) ∧
    (invokeHandlers [fun _ _ => ⟨Except.error "first", 1⟩, fun _ _ => ⟨Except.ok (), 9⟩]
        ⟨"activity", 1, "create", 2, 3, 4⟩ 2).1 = ⟨Except.error "first", 1⟩ :=
  ⟨(c1_fanout_rejection_semantics.1
      ⟨[fun _ _ => ⟨Except.error "first", 1⟩, fun _ _ => ⟨Except.ok (), 9⟩],
        [fun _ _ => ⟨Except.ok (), 2⟩], [fun _ _ => ⟨Except.error "del", 3⟩],
        [fun _ _ => ⟨Except.ok (), 4⟩]⟩
      ⟨"activity", 1, "create", 2, 3, 4⟩).1 rfl rfl,
   (c1_fanout_rejection_semantics.1
      ⟨[fun _ _ => ⟨Except.error "first", 1⟩, fun _ _ => ⟨Except.ok (), 9⟩],
        [fun _ _ => ⟨Except.ok (), 2⟩], [fun _ _ => ⟨Except.error "del", 3⟩],
        [fun _ _ => ⟨Except.ok (), 4⟩]⟩
      ⟨"activity", 1, "update", 2, 3, 4⟩).2.1 rfl rfl,
   (c1_fanout_rejection_semantics.1
      ⟨[fun _ _ => ⟨Except.error "first", 1⟩, fun _ _ => ⟨Except.ok (), 9⟩],
        [fun _ _ => ⟨Except.ok (), 2⟩], [fun _ _ => ⟨Except.error "del", 3⟩],
        [fun _ _ => ⟨Except.ok (), 4⟩]⟩
      ⟨"activity", 1, "delete", 2, 3, 4⟩).2.2.1 rfl rfl,
   (c1_fanout_rejection_semantics.1
      ⟨[fun _ _ => ⟨Except.error "first", 1⟩, fun _ _ => ⟨Except.ok (), 9⟩],
        [fun _ _ => ⟨Except.ok (), 2⟩], [fun _ _ => ⟨Except.error "del", 3⟩],
        [fun _ _ => ⟨Except.ok (), 4⟩]⟩
      ⟨"athlete", 1, "deauthorize", 2, 3, 4⟩).2.2.2 rfl rfl,
   ((c1_fanout_rejection_semantics.2
      [fun _ _ => ⟨Except.error "first", 1⟩, fun _ _ => ⟨Except.ok (), 9⟩]
      ⟨"activity", 1, "create", 2, 3, 4⟩ 2).2.2 ⟨Except.error "first", 1⟩ rfl).1⟩

/-- C2: the Bottleneck options built by `createRateLimiter` contain no
daily-window constraint, so the configured limiter admits requests in
excess of the daily quota.  Concretely, with a configured daily quota
of 1 request per 24 h (and `minTime` 6000 ms), the limiter dispatches a
first request at t = 0 and still admits a second at t = 6000 — both
within the same daily window — contradicting the claimed admission
condition `daily used < daily quota`. -/
theorem c2_daily_quota_not_enforced :
    createRateLimiter (some ⟨none, some ⟨1, 86400000⟩, some 6000⟩) =
      ⟨6000, 1, 90, 90, 900000⟩ ∧
    canDispatch (createRateLimiter (some ⟨none, some ⟨1, 86400000⟩, some 6000⟩))
      (initialLimiterState
        (createRateLimiter (some ⟨none, some ⟨1, 86400000⟩, some 6000⟩))) 0 = true ∧
    canDispatch (createRateLimiter (some ⟨none, some ⟨1, 86400000⟩, some 6000⟩))
      (completeStep (dispatchStep
        (initialLimiterState
          (createRateLimiter (some ⟨none, some ⟨1, 86400000⟩, some 6000⟩))) 0)) 6000 =
      true ∧
    (6000 : Nat) < 86400000 := by
  refine ⟨rfl, by decide, by decide, by decide⟩

end StravaSpec
